import Mathlib

/-!
Verification of the tutor-connect attendance tracker (src/App.tsx).

This file gives a shallow embedding of the logic of the application: the
JS `Date` arithmetic it relies on, the calendar grid construction of the
Calendar component, the attendance fetch/build of the Dashboard, the
save/upsert state transition, the login comparison and the roster add
operation.  Theorems about these definitions settle the specified
properties of the system.
-/

namespace TutorConnect

/-- Attendance status enumeration (App.tsx line 5). -/
inductive AttendanceStatus where
  | present
  | absent
  | holiday
  | extra
deriving DecidableEq

/-- Attendance record: a status plus a free-text comment (App.tsx lines 11-14). -/
structure AttendanceRecord where
  status : AttendanceStatus
  comment : String
deriving DecidableEq

/-- Calendar date as stored in the DATE column of the gateway; `month` is 1-based. -/
structure DateT where
  year : Nat
  month : Nat
  day : Nat
deriving DecidableEq

/-- In-memory attendance state, mapping date strings to records
(interface AttendanceData, App.tsx lines 21-23). -/
abbrev AttendanceData := String → Option AttendanceRecord

/-- Tutor secret literal (App.tsx line 27). -/
def TUTOR_SECRET_CODE : String := "Tutor2042!"

/-- Gregorian leap-year rule. -/
def isLeapYear (y : Nat) : Bool :=
  (y % 4 == 0 && y % 100 != 0) || y % 400 == 0

/-- Number of days in month `m1` (1-based) of year `y`. -/
def monthLength (y m1 : Nat) : Nat :=
  if m1 == 2 then (if isLeapYear y then 29 else 28)
  else if m1 == 4 || m1 == 6 || m1 == 9 || m1 == 11 then 30
  else 31

/-- Model of the JS expression `new Date(year, month + 1, 0).getDate()`
(App.tsx lines 214 and 436): the number of days in the 0-based month `m0`
of `year`, with JS month-index overflow carried into the year. -/
def jsDaysInMonth (year m0 : Nat) : Nat :=
  monthLength (year + m0 / 12) (m0 % 12 + 1)

/-- Days in the months strictly before month `m1` (1-based) of a common year. -/
def monthDaysBefore : Nat → Nat
  | 2 => 31
  | 3 => 59
  | 4 => 90
  | 5 => 120
  | 6 => 151
  | 7 => 181
  | 8 => 212
  | 9 => 243
  | 10 => 273
  | 11 => 304
  | 12 => 334
  | _ => 0

/-- Ordinal day of the year of the date `y-m1-d`. -/
def dayOfYear (y m1 d : Nat) : Nat :=
  monthDaysBefore m1 + (if 2 < m1 && isLeapYear y then 1 else 0) + d

/-- Rata-die day number in the proleptic Gregorian calendar (0001-01-01 is day 1). -/
def rataDie (y m1 d : Nat) : Nat :=
  365 * (y - 1) + (y - 1) / 4 - (y - 1) / 100 + (y - 1) / 400 + dayOfYear y m1 d

/-- Model of `new Date(year, m0, day).getDay()` (App.tsx line 213) for positive
years: the weekday index with Sunday = 0, Monday = 1, and so on. -/
def getDay (year m0 day : Nat) : Nat :=
  rataDie (year + m0 / 12) (m0 % 12 + 1) day % 7

/-- Model of the JS `String(n).padStart(2, '0')` used for month and day numbers. -/
def pad2 (n : Nat) : String :=
  if n < 10 then "0" ++ toString n else toString n

/-- Canonical date string of day `day` of the 0-based month `m0` of `year`,
as built by the template literal at App.tsx lines 222, 435, 437 and 491. -/
def dateStr (year m0 day : Nat) : String :=
  toString year ++ "-" ++ pad2 (m0 + 1) ++ "-" ++ pad2 day

/-- Date string of a gateway DATE value (1-based month), in the zero-padded
ISO form the gateway serializes dates to. -/
def DateT.str (d : DateT) : String :=
  toString d.year ++ "-" ++ pad2 d.month ++ "-" ++ pad2 d.day

/-- One cell of the calendar grid built by the useMemo at App.tsx lines 212-227. -/
inductive Cell where
  | blank (key : String)
  | day (key : String) (day : Nat) (record : Option AttendanceRecord)
deriving DecidableEq

/-- First loop of calendarGrid (App.tsx lines 217-219): push `n` blank cells,
keyed `blank-0`, ..., `blank-(n-1)`, in order. -/
def blankCells : Nat → List Cell
  | 0 => []
  | n + 1 => blankCells n ++ [Cell.blank ("blank-" ++ toString n)]

/-- Second loop of calendarGrid (App.tsx lines 221-225): push one cell per day
`1..n`, each keyed by its date string and carrying the looked-up record. -/
def dayCells (year m0 : Nat) (attendance : AttendanceData) : Nat → List Cell
  | 0 => []
  | n + 1 =>
      dayCells year m0 attendance n ++
        [Cell.day (dateStr year m0 (n + 1)) (n + 1) (attendance (dateStr year m0 (n + 1)))]

/-- Model of calendarGrid (App.tsx lines 212-227): blanks for the weekdays before
the 1st, then one cell per day of the month. -/
def calendarGrid (year m0 : Nat) (attendance : AttendanceData) : List Cell :=
  blankCells (getDay year m0 1) ++ dayCells year m0 attendance (jsDaysInMonth year m0)

theorem blankCells_eq_map (n : Nat) :
    blankCells n = (List.range n).map (fun i => Cell.blank ("blank-" ++ toString i)) := by
  induction n with
  | zero => rfl
  | succ n ih =>
      rw [blankCells, ih, List.range_succ, List.map_append]
      rfl

theorem dayCells_eq_map (year m0 : Nat) (att : AttendanceData) (n : Nat) :
    dayCells year m0 att n =
      (List.range n).map (fun k =>
        Cell.day (dateStr year m0 (k + 1)) (k + 1) (att (dateStr year m0 (k + 1)))) := by
  induction n with
  | zero => rfl
  | succ n ih =>
      rw [dayCells, ih, List.range_succ, List.map_append]
      rfl

/-- C1: for every year and month, the calendar grid consists of exactly
`getDay year m0 1` leading blank cells (the weekday index of the 1st,
Sunday = 0) followed by exactly `jsDaysInMonth year m0` day cells, where the
cell for day `d` carries the day number `d` and the record stored in the
attendance mapping under the canonical date string of that day. -/
theorem calendarGrid_shape (year m0 : Nat) (att : AttendanceData) :
    calendarGrid year m0 att =
      (List.range (getDay year m0 1)).map (fun i => Cell.blank ("blank-" ++ toString i)) ++
      (List.range (jsDaysInMonth year m0)).map (fun k =>
        Cell.day (dateStr year m0 (k + 1)) (k + 1) (att (dateStr year m0 (k + 1)))) := by
  rw [calendarGrid, blankCells_eq_map, dayCells_eq_map]

/-- Sanity check of the weekday model: March 2023 starts on a Wednesday, so a
March 2023 grid has exactly three leading blanks. -/
theorem getDay_march2023 : getDay 2023 2 1 = 3 := by decide

/-- Sanity check of the weekday model: 2000-01-01 was a Saturday. -/
theorem getDay_jan2000 : getDay 2000 0 1 = 6 := by decide

/-- Sanity check of the month-length model: February 2024 has 29 days and
December (month index 11) has 31. -/
theorem jsDaysInMonth_checks : jsDaysInMonth 2024 1 = 29 ∧ jsDaysInMonth 2023 1 = 28 ∧
    jsDaysInMonth 2024 11 = 31 ∧ jsDaysInMonth 2024 3 = 30 := by decide

/-- A JS Date value as used by the month navigation of the Dashboard: `month`
is the 0-based month index (the result of getMonth), `day` the day of month. -/
structure JSDate where
  year : Int
  month : Nat
  day : Nat
deriving DecidableEq

/-- Model of `date.setMonth(m, 1)` (App.tsx line 479): the month index `m` may
over- or underflow and is normalized into the year with floor division; the
day of month is forced to 1. -/
def setMonthDay1 (dt : JSDate) (m : Int) : JSDate :=
  { year := dt.year + m / 12, month := (m % 12).toNat, day := 1 }

/-- Model of changeMonth (App.tsx lines 476-482). -/
def changeMonth (delta : Int) (dt : JSDate) : JSDate :=
  setMonthDay1 dt ((dt.month : Int) + delta)

/-- C2: month navigation normalizes the day of month to the 1st; for every
starting date whose month index is in range, one forward step advances the
linearized (year, month) index by exactly one (no skip, no repeat), and a
forward step followed by a backward step returns to the original year and
month. -/
theorem changeMonth_spec (dt : JSDate) (h : dt.month < 12) :
    (changeMonth 1 dt).day = 1 ∧
    (changeMonth 1 dt).year * 12 + (changeMonth 1 dt).month = dt.year * 12 + dt.month + 1 ∧
    (changeMonth (-1) (changeMonth 1 dt)).year = dt.year ∧
    (changeMonth (-1) (changeMonth 1 dt)).month = dt.month := by
  obtain ⟨y, m, d⟩ := dt
  simp only [changeMonth, setMonthDay1] at h ⊢
  refine ⟨trivial, ?_, ?_, ?_⟩ <;> omega

/-- Witness for C2 at the month-overflow example from the specification:
starting at 2025-01-31 (month index 0, day 31). -/
theorem changeMonth_spec_witness :
    (JSDate.mk 2025 0 31).month < 12 ∧
    ((changeMonth 1 ⟨2025, 0, 31⟩).day = 1 ∧
      (changeMonth 1 ⟨2025, 0, 31⟩).year * 12 + (changeMonth 1 ⟨2025, 0, 31⟩).month =
        (JSDate.mk 2025 0 31).year * 12 + (JSDate.mk 2025 0 31).month + 1 ∧
      (changeMonth (-1) (changeMonth 1 ⟨2025, 0, 31⟩)).year = (JSDate.mk 2025 0 31).year ∧
      (changeMonth (-1) (changeMonth 1 ⟨2025, 0, 31⟩)).month = (JSDate.mk 2025 0 31).month) :=
  ⟨by decide, changeMonth_spec ⟨2025, 0, 31⟩ (by decide)⟩

/-- One row of the attendance table of the gateway (schema at App.tsx
lines 104-113). -/
structure AttendanceRow where
  student_id : String
  date : DateT
  status : AttendanceStatus
  comment : String
deriving DecidableEq

/-- DATE-column ordering used by the gte and lte filters of the gateway. -/
def dateLE (a b : DateT) : Bool :=
  decide (a.year < b.year ∨ (a.year = b.year ∧
    (a.month < b.month ∨ (a.month = b.month ∧ a.day ≤ b.day))))

theorem dateLE_range_iff (y m L : Nat) (dt : DateT) :
    (dateLE ⟨y, m, 1⟩ dt && dateLE dt ⟨y, m, L⟩) = true ↔
      dt.year = y ∧ dt.month = m ∧ 1 ≤ dt.day ∧ dt.day ≤ L := by
  obtain ⟨a, b, c⟩ := dt
  simp only [dateLE, Bool.and_eq_true, decide_eq_true_eq]
  omega

/-- Gateway query issued by fetchAttendanceForMonth (App.tsx lines 440-445):
all rows of the attendance table for `sid` whose date lies in `[lo, hi]`. -/
def attendanceQuery (db : List AttendanceRow) (sid : String) (lo hi : DateT) :
    List AttendanceRow :=
  db.filter (fun r => r.student_id == sid && dateLE lo r.date && dateLE r.date hi)

/-- One step of the loop at App.tsx lines 450-452: assign the record of the row
under its date-string key, overwriting any earlier assignment. -/
def assignRow (acc : AttendanceData) (r : AttendanceRow) : AttendanceData :=
  fun s => if s = r.date.str then some ⟨r.status, r.comment⟩ else acc s

/-- The loop at App.tsx lines 449-452, rebuilding the date-to-record mapping
from scratch out of the response rows. -/
def buildAttendanceData (rows : List AttendanceRow) : AttendanceData :=
  rows.foldl assignRow (fun _ => none)

/-- Model of fetchAttendanceForMonth (App.tsx lines 430-459): the attendance
mapping computed for student `sid` and the 0-based month `m0` of `year`, given
the gateway table contents `db`. -/
def fetchAttendanceForMonth (db : List AttendanceRow) (sid : String) (year m0 : Nat) :
    AttendanceData :=
  buildAttendanceData
    (attendanceQuery db sid ⟨year, m0 + 1, 1⟩ ⟨year, m0 + 1, jsDaysInMonth year m0⟩)

theorem foldl_assignRow_ne_none (rows : List AttendanceRow) (acc : AttendanceData)
    (s : String) :
    rows.foldl assignRow acc s ≠ none ↔ acc s ≠ none ∨ ∃ r ∈ rows, r.date.str = s := by
  induction rows generalizing acc with
  | nil => simp
  | cons r rows ih =>
      rw [List.foldl_cons, ih]
      by_cases hs : s = r.date.str
      · simp [assignRow, hs]
      · simp only [assignRow, if_neg hs, List.mem_cons]
        constructor
        · rintro (h | ⟨r', hr', hr's⟩)
          · exact Or.inl h
          · exact Or.inr ⟨r', Or.inr hr', hr's⟩
        · rintro (h | ⟨r', (rfl | hr'), hr's⟩)
          · exact Or.inl h
          · exact absurd hr's.symm hs
          · exact Or.inr ⟨r', hr', hr's⟩

theorem buildAttendanceData_ne_none (rows : List AttendanceRow) (s : String) :
    buildAttendanceData rows s ≠ none ↔ ∃ r ∈ rows, r.date.str = s := by
  rw [buildAttendanceData, foldl_assignRow_ne_none]
  simp

theorem fetch_ne_none_iff (db : List AttendanceRow) (sid : String) (year m0 : Nat)
    (s : String) :
    fetchAttendanceForMonth db sid year m0 s ≠ none ↔
      ∃ r ∈ db, r.student_id = sid ∧ r.date.year = year ∧ r.date.month = m0 + 1 ∧
        1 ≤ r.date.day ∧ r.date.day ≤ jsDaysInMonth year m0 ∧ r.date.str = s := by
  rw [fetchAttendanceForMonth, buildAttendanceData_ne_none]
  constructor
  · rintro ⟨r, hr, hrs⟩
    rw [attendanceQuery, List.mem_filter, Bool.and_eq_true, Bool.and_eq_true] at hr
    obtain ⟨hmem, ⟨hsid, hlo⟩, hhi⟩ := hr
    have hrange := (dateLE_range_iff year (m0 + 1) (jsDaysInMonth year m0) r.date).mp
      (by rw [Bool.and_eq_true]; exact ⟨hlo, hhi⟩)
    exact ⟨r, hmem, by simpa using hsid, hrange.1, hrange.2.1, hrange.2.2.1,
      hrange.2.2.2, hrs⟩
  · rintro ⟨r, hmem, hsid, hy, hm, hd1, hd2, hrs⟩
    refine ⟨r, ?_, hrs⟩
    have hrange : (dateLE ⟨year, m0 + 1, 1⟩ r.date &&
        dateLE r.date ⟨year, m0 + 1, jsDaysInMonth year m0⟩) = true :=
      (dateLE_range_iff year (m0 + 1) (jsDaysInMonth year m0) r.date).mpr
        ⟨hy, hm, hd1, hd2⟩
    rw [Bool.and_eq_true] at hrange
    rw [attendanceQuery, List.mem_filter, Bool.and_eq_true, Bool.and_eq_true]
    exact ⟨hmem, ⟨by simpa using hsid, hrange.1⟩, hrange.2⟩

/-- C3: for every student and viewed month, the attendance mapping rebuilt by the
fetch contains an entry for a date string iff the gateway holds a row for that
student whose date lies in the inclusive range from the first to the last
calendar day of that month and whose date string is that key; in particular the
mapping has no entry for any date outside that range. -/
theorem fetchAttendanceForMonth_spec (db : List AttendanceRow) (sid : String)
    (year m0 : Nat) (s : String) :
    fetchAttendanceForMonth db sid year m0 s ≠ none ↔
      ∃ r ∈ db, r.student_id = sid ∧ r.date.year = year ∧ r.date.month = m0 + 1 ∧
        1 ≤ r.date.day ∧ r.date.day ≤ jsDaysInMonth year m0 ∧ r.date.str = s :=
  fetch_ne_none_iff db sid year m0 s

/-- Requests that the dashboard and roster handlers can issue to the gateway. -/
inductive GatewayReq where
  | upsertAttendance (student_id : String) (date : String) (record : AttendanceRecord)
  | fetchAttendance (student_id : String) (lo hi : DateT)
  | insertStudent (name : String)
  | refetchStudents
deriving DecidableEq

/-- Dashboard state relevant to the attendance data flow (App.tsx lines 420-428).
Here `month` is the 0-based month of currentDate, and `selectedStudentId` is the
raw string state, whose JS falsiness is the empty string. -/
structure DashState where
  year : Nat
  month : Nat
  selectedStudentId : String
  attendance : AttendanceData
  isLoadingAttendance : Bool
  isModalOpen : Bool
  selectedDay : Option Nat

/-- JS truthiness of the selectedDay state, a number or null. -/
def truthyDay : Option Nat → Bool
  | none => false
  | some d => d != 0

/-- Model of handleSaveAttendance (App.tsx lines 489-507). `hasClient` is whether
the module-level gateway client is non-null, `gatewayOk` whether the upsert
succeeds. Returns the successor state and the list of requests issued. -/
def handleSaveAttendance (hasClient gatewayOk : Bool) (st : DashState)
    (record : AttendanceRecord) : DashState × List GatewayReq :=
  if truthyDay st.selectedDay && hasClient then
    let d := st.selectedDay.getD 0
    let ds := dateStr st.year st.month d
    let att : AttendanceData :=
      if gatewayOk then fun s => if s = ds then some record else st.attendance s
      else st.attendance
    ({ st with attendance := att, isModalOpen := false, selectedDay := none },
      [GatewayReq.upsertAttendance st.selectedStudentId ds record])
  else (st, [])

/-- Model of the attendance effect (App.tsx lines 461-468): when a student is
selected the mapping is replaced by a fresh fetch for the viewed month, else it
is cleared; either way the loading flag ends up false.  The Dashboard only
renders when the gateway client exists (App.tsx line 610), so the client is
assumed present here. -/
def attendanceEffect (db : List AttendanceRow) (st : DashState) : DashState :=
  if st.selectedStudentId ≠ "" then
    { st with
        attendance := fetchAttendanceForMonth db st.selectedStudentId st.year st.month,
        isLoadingAttendance := false }
  else
    { st with attendance := fun _ => none, isLoadingAttendance := false }

/-- C4: when the upsert fails, the in-memory attendance mapping is left exactly
as it was, and the modal open flag and selected day are cleared just as they are
on success. -/
theorem handleSaveAttendance_failure (st : DashState) (record : AttendanceRecord)
    (d : Nat) (hd : st.selectedDay = some d) (hd0 : d ≠ 0) :
    (handleSaveAttendance true false st record).1.attendance = st.attendance ∧
    (handleSaveAttendance true false st record).1.isModalOpen = false ∧
    (handleSaveAttendance true false st record).1.selectedDay = none ∧
    (handleSaveAttendance true true st record).1.isModalOpen = false ∧
    (handleSaveAttendance true true st record).1.selectedDay = none := by
  have ht : truthyDay st.selectedDay = true := by
    rw [hd]; simpa [truthyDay] using hd0
  simp [handleSaveAttendance, ht]

/-- C5: when the upsert succeeds, the mapping afterwards holds the new record
under the canonical date string of the selected day, every other date is
unmapped or mapped exactly as before, and the only request issued is the single
upsert: in particular no attendance fetch is performed. -/
theorem handleSaveAttendance_success (st : DashState) (record : AttendanceRecord)
    (d : Nat) (hd : st.selectedDay = some d) (hd0 : d ≠ 0) :
    (handleSaveAttendance true true st record).1.attendance
        (dateStr st.year st.month d) = some record ∧
    (∀ s, s ≠ dateStr st.year st.month d →
      (handleSaveAttendance true true st record).1.attendance s = st.attendance s) ∧
    (handleSaveAttendance true true st record).2 =
      [GatewayReq.upsertAttendance st.selectedStudentId
        (dateStr st.year st.month d) record] ∧
    (∀ q ∈ (handleSaveAttendance true true st record).2,
      ∀ sid lo hi, q ≠ GatewayReq.fetchAttendance sid lo hi) := by
  have ht : truthyDay st.selectedDay = true := by
    rw [hd]; simpa [truthyDay] using hd0
  have hgd : st.selectedDay.getD 0 = d := by rw [hd]; rfl
  refine ⟨?_, ?_, ?_, ?_⟩
  · simp [handleSaveAttendance, ht, hgd]
  · intro s hs
    simp [handleSaveAttendance, ht, hgd, hs]
  · simp [handleSaveAttendance, ht, hgd]
  · intro q hq sid lo hi
    simp only [handleSaveAttendance, ht, Bool.and_self, if_pos] at hq
    simp only [List.mem_singleton] at hq
    subst hq
    intro hcontra
    exact GatewayReq.noConfusion hcontra

/-- C10: invoked with no selected day, or with the gateway client absent, the
save handler is a complete no-op: the state, including the modal open flag and
the selected day, is returned unchanged and no request is issued. -/
theorem handleSaveAttendance_noop (hasClient gatewayOk : Bool) (st : DashState)
    (record : AttendanceRecord) (h : st.selectedDay = none ∨ hasClient = false) :
    handleSaveAttendance hasClient gatewayOk st record = (st, []) := by
  rcases h with h | h
  · simp [handleSaveAttendance, truthyDay, h]
  · simp [handleSaveAttendance, h]

/-- Invariant of C6: every key of the attendance mapping is the canonical date
string of a day of the viewed month. -/
def attInMonth (year m0 : Nat) (att : AttendanceData) : Prop :=
  ∀ s, att s ≠ none → ∃ d, 1 ≤ d ∧ d ≤ jsDaysInMonth year m0 ∧ s = dateStr year m0 d

/-- C6: every write to the attendance mapping keeps its keys inside the viewed
month: the effect (month fetch, or the clearing branch when no student is
selected) establishes the invariant outright, the successful edit-commit merge
preserves it when the selected day is a day of the viewed month, and the effect
replaces the mapping wholesale, its outcome independent of the prior mapping. -/
theorem attendance_month_invariant (db : List AttendanceRow) (st : DashState)
    (record : AttendanceRecord) (d : Nat) :
    attInMonth st.year st.month (attendanceEffect db st).attendance ∧
    (attInMonth st.year st.month st.attendance → st.selectedDay = some d →
      1 ≤ d → d ≤ jsDaysInMonth st.year st.month →
      attInMonth st.year st.month
        (handleSaveAttendance true true st record).1.attendance) ∧
    (∀ att₁ att₂ : AttendanceData,
      (attendanceEffect db { st with attendance := att₁ }).attendance =
        (attendanceEffect db { st with attendance := att₂ }).attendance) := by
  refine ⟨?_, ?_, ?_⟩
  · intro s hs
    rw [attendanceEffect] at hs
    by_cases hsid : st.selectedStudentId ≠ ""
    · rw [if_pos hsid] at hs
      simp only at hs
      obtain ⟨r, _, _, hy, hm, hd1, hd2, hstr⟩ :=
        (fetch_ne_none_iff db st.selectedStudentId st.year st.month s).mp hs
      refine ⟨r.date.day, hd1, hd2, ?_⟩
      rw [← hstr, DateT.str, dateStr, hy, hm]
    · rw [if_neg hsid] at hs
      simp at hs
  · intro hinv hd hd1 hd2
    have ht : truthyDay st.selectedDay = true := by
      rw [hd]; simp [truthyDay]; omega
    have hgd : st.selectedDay.getD 0 = d := by rw [hd]; rfl
    intro s hs
    simp only [handleSaveAttendance, ht, Bool.and_self, if_pos, hgd] at hs
    by_cases hsd : s = dateStr st.year st.month d
    · exact ⟨d, hd1, hd2, hsd⟩
    · rw [if_neg hsd] at hs
      exact hinv s hs
  · intro att₁ att₂
    rw [attendanceEffect, attendanceEffect]

/-- Sample record used by concrete witnesses. -/
def sampleRecord : AttendanceRecord := ⟨AttendanceStatus.present, "makeup class"⟩

/-- Sample empty attendance mapping. -/
def sampleAtt : AttendanceData := fun _ => none

/-- Sample dashboard state viewing March 2024 with day 5 selected. -/
def sampleState : DashState :=
  { year := 2024, month := 2, selectedStudentId := "s1",
    attendance := sampleAtt, isLoadingAttendance := false,
    isModalOpen := true, selectedDay := some 5 }

/-- Sample dashboard state with no day selected. -/
def sampleStateNoDay : DashState := { sampleState with selectedDay := none }

/-- Sample gateway table contents. -/
def sampleDb : List AttendanceRow :=
  [⟨"s1", ⟨2024, 3, 5⟩, AttendanceStatus.absent, "sick"⟩]

/-- Witness for C4 at a concrete state with day 5 selected. -/
theorem handleSaveAttendance_failure_witness :
    (sampleState.selectedDay = some 5 ∧ (5 : Nat) ≠ 0) ∧
    ((handleSaveAttendance true false sampleState sampleRecord).1.attendance =
        sampleState.attendance ∧
      (handleSaveAttendance true false sampleState sampleRecord).1.isModalOpen = false ∧
      (handleSaveAttendance true false sampleState sampleRecord).1.selectedDay = none ∧
      (handleSaveAttendance true true sampleState sampleRecord).1.isModalOpen = false ∧
      (handleSaveAttendance true true sampleState sampleRecord).1.selectedDay = none) :=
  ⟨⟨rfl, by decide⟩, handleSaveAttendance_failure sampleState sampleRecord 5 rfl (by decide)⟩

/-- Witness for C5 at a concrete state with day 5 selected. -/
theorem handleSaveAttendance_success_witness :
    (sampleState.selectedDay = some 5 ∧ (5 : Nat) ≠ 0) ∧
    ((handleSaveAttendance true true sampleState sampleRecord).1.attendance
        (dateStr sampleState.year sampleState.month 5) = some sampleRecord ∧
      (∀ s, s ≠ dateStr sampleState.year sampleState.month 5 →
        (handleSaveAttendance true true sampleState sampleRecord).1.attendance s =
          sampleState.attendance s) ∧
      (handleSaveAttendance true true sampleState sampleRecord).2 =
        [GatewayReq.upsertAttendance sampleState.selectedStudentId
          (dateStr sampleState.year sampleState.month 5) sampleRecord] ∧
      (∀ q ∈ (handleSaveAttendance true true sampleState sampleRecord).2,
        ∀ sid lo hi, q ≠ GatewayReq.fetchAttendance sid lo hi)) :=
  ⟨⟨rfl, by decide⟩, handleSaveAttendance_success sampleState sampleRecord 5 rfl (by decide)⟩

/-- Witness for C10 at a concrete state with no day selected. -/
theorem handleSaveAttendance_noop_witness :
    (sampleStateNoDay.selectedDay = none ∨ (true : Bool) = false) ∧
    handleSaveAttendance true true sampleStateNoDay sampleRecord = (sampleStateNoDay, []) :=
  ⟨Or.inl rfl,
    handleSaveAttendance_noop true true sampleStateNoDay sampleRecord (Or.inl rfl)⟩

/-- Witness for C6 at concrete gateway contents and dashboard state. -/
theorem attendance_month_invariant_witness :
    attInMonth sampleState.year sampleState.month
        (attendanceEffect sampleDb sampleState).attendance ∧
    (attInMonth sampleState.year sampleState.month sampleState.attendance →
      sampleState.selectedDay = some 5 →
      1 ≤ 5 → 5 ≤ jsDaysInMonth sampleState.year sampleState.month →
      attInMonth sampleState.year sampleState.month
        (handleSaveAttendance true true sampleState sampleRecord).1.attendance) ∧
    (∀ att₁ att₂ : AttendanceData,
      (attendanceEffect sampleDb { sampleState with attendance := att₁ }).attendance =
        (attendanceEffect sampleDb { sampleState with attendance := att₂ }).attendance) :=
  attendance_month_invariant sampleDb sampleState sampleRecord 5

/-- A rendered calendar cell (App.tsx lines 242-275): a blank filler, or a day
cell carrying the day number, the looked-up record, the is-today marker and the
tutor click affordance. -/
inductive RenderedCell where
  | blank (key : String)
  | day (key : String) (day : Nat) (record : Option AttendanceRecord)
      (isToday : Bool) (clickable : Bool)
deriving DecidableEq

/-- The rendered calendar view: the loading overlay flag plus the cell list. -/
structure CalendarView where
  loadingOverlay : Bool
  cells : List RenderedCell
deriving DecidableEq

/-- The current civil date as read from the ambient clock by new Date() at
App.tsx line 247; `month` is 0-based. -/
structure Today where
  year : Nat
  month : Nat
  day : Nat
deriving DecidableEq

/-- Rendering of one grid cell (App.tsx lines 242-275): a day cell is marked
when its date equals the ambient date and is clickable exactly for the tutor. -/
def renderCell (today : Today) (year m0 : Nat) (isTutor : Bool) : Cell → RenderedCell
  | Cell.blank k => RenderedCell.blank k
  | Cell.day k d r => RenderedCell.day k d r (today == ⟨year, m0, d⟩) isTutor

/-- The render of the Calendar component (App.tsx lines 202-279) as a function
of its props and of the ambient clock date. -/
def renderCalendar (today : Today) (year m0 : Nat) (attendance : AttendanceData)
    (isTutor isLoading : Bool) : CalendarView :=
  { loadingOverlay := isLoading,
    cells := (calendarGrid year m0 attendance).map (renderCell today year m0 isTutor) }

/-- C7 counterexample: two renders of January 2024 with identical declared
inputs (year, month, attendance, tutor flag, loading flag) but different
ambient clock dates produce different outputs, because the is-today marker at
App.tsx line 247 reads the clock, which is not among the declared inputs. -/
theorem renderCalendar_reads_clock :
    renderCalendar ⟨2024, 0, 1⟩ 2024 0 sampleAtt true false ≠
      renderCalendar ⟨2024, 0, 2⟩ 2024 0 sampleAtt true false := by
  decide

/-- Erasure of the is-today marker from a rendered cell. -/
def clearTodayMark : RenderedCell → RenderedCell
  | RenderedCell.blank k => RenderedCell.blank k
  | RenderedCell.day k d r _ c => RenderedCell.day k d r false c

/-- C7 amended: the Calendar render is a deterministic, side-effect-free
function of its declared inputs together with the ambient current date; with
the declared inputs fixed, everything except the is-today marker is independent
of the clock. -/
theorem renderCalendar_deterministic (t₁ t₂ : Today) (year m0 : Nat)
    (att : AttendanceData) (isTutor isLoading : Bool) :
    (renderCalendar t₁ year m0 att isTutor isLoading).loadingOverlay =
      (renderCalendar t₂ year m0 att isTutor isLoading).loadingOverlay ∧
    (renderCalendar t₁ year m0 att isTutor isLoading).cells.map clearTodayMark =
      (renderCalendar t₂ year m0 att isTutor isLoading).cells.map clearTodayMark := by
  refine ⟨rfl, ?_⟩
  simp only [renderCalendar, List.map_map]
  congr 1
  funext c
  cases c <;> rfl

/-- A login session: the tutor, or the parent view of one student. -/
inductive Session where
  | tutor
  | parent (student : String)
deriving DecidableEq

/-- Model of handleTutorLogin (App.tsx lines 134-141): the entered code is
compared against the secret literal; on a match the tutor session is
established, otherwise the inline error message is set and no session exists.
The pair carries the session outcome and the error message state. -/
def handleTutorLogin (tutorCode : String) (prevError : String) :
    Option Session × String :=
  if tutorCode = TUTOR_SECRET_CODE then (some Session.tutor, prevError)
  else (none, "Invalid secret code.")

/-- C8: tutor login succeeds iff the entered code equals the secret literal
exactly; any other input establishes no session and sets the visible error. -/
theorem handleTutorLogin_spec (code err : String) :
    ((handleTutorLogin code err).1 = some Session.tutor ↔ code = TUTOR_SECRET_CODE) ∧
    (code ≠ TUTOR_SECRET_CODE →
      (handleTutorLogin code err).1 = none ∧
      (handleTutorLogin code err).2 = "Invalid secret code.") := by
  by_cases h : code = TUTOR_SECRET_CODE <;> simp [handleTutorLogin, h]

/-- Witness for C8 at concrete codes: the secret itself succeeds, a wrong code
yields the error and no session. -/
theorem handleTutorLogin_spec_witness :
    (handleTutorLogin "Tutor2042!" "").1 = some Session.tutor ∧
    (handleTutorLogin "guess" "").1 = none ∧
    (handleTutorLogin "guess" "").2 = "Invalid secret code." :=
  ⟨(handleTutorLogin_spec "Tutor2042!" "").1.mpr rfl,
    ((handleTutorLogin_spec "guess" "").2 (by decide)).1,
    ((handleTutorLogin_spec "guess" "").2 (by decide)).2⟩

/-- A student roster row (App.tsx lines 6-10). -/
structure Student where
  id : String
  name : String
  created_at : String
deriving DecidableEq

/-- Result of the addStudent handler: the requests issued, the new-name input
state afterwards, whether a roster refetch was triggered, and the roster list,
which the handler never writes locally. -/
structure AddStudentResult where
  reqs : List GatewayReq
  newNameState : String
  refetchTriggered : Bool
  roster : List Student
deriving DecidableEq

/-- Characters removed by the JS trim() builtin, restricted to the ASCII
whitespace actually enterable in the roster name field. -/
def jsSpace (c : Char) : Bool :=
  c == ' ' || c == '\t' || c == '\n' || c == '\r'

/-- Model of the JS trim() builtin: whitespace stripped from both ends. -/
def jsTrim (s : String) : String :=
  ⟨((s.data.dropWhile jsSpace).reverse.dropWhile jsSpace).reverse⟩

/-- Model of addStudent (App.tsx lines 357-367): a name whose trimmed form is
empty is rejected locally by JS string falsiness; otherwise the trimmed name is
inserted and, on success, the input is cleared and a full roster refetch is
triggered. -/
def addStudent (hasClient gatewayOk : Bool) (newName : String)
    (roster : List Student) : AddStudentResult :=
  if jsTrim newName != "" && hasClient then
    if gatewayOk then ⟨[GatewayReq.insertStudent (jsTrim newName)], "", true, roster⟩
    else ⟨[GatewayReq.insertStudent (jsTrim newName)], newName, false, roster⟩
  else ⟨[], newName, false, roster⟩

/-- C9: a blank or whitespace-only name is rejected locally, with no request
issued and the roster untouched; a name with non-empty trimmed form issues an
insert carrying only the trimmed name, leaves the roster untouched locally, and
on gateway success triggers the full roster refetch. -/
theorem addStudent_spec (gatewayOk : Bool) (name : String) (roster : List Student) :
    (jsTrim name = "" →
      addStudent true gatewayOk name roster = ⟨[], name, false, roster⟩) ∧
    (jsTrim name ≠ "" →
      (addStudent true gatewayOk name roster).reqs =
        [GatewayReq.insertStudent (jsTrim name)] ∧
      (addStudent true gatewayOk name roster).roster = roster ∧
      (gatewayOk = true →
        (addStudent true gatewayOk name roster).refetchTriggered = true)) := by
  constructor
  · intro h
    simp [addStudent, h]
  · intro h
    have hb : (jsTrim name != "" && true) = true := by simpa using h
    cases gatewayOk <;> simp [addStudent, hb]

/-- Witness for C9 at concrete names: a whitespace-only name is rejected, a
padded real name is inserted trimmed and triggers the refetch. -/
theorem addStudent_spec_witness :
    addStudent true true "   " [] = ⟨[], "   ", false, []⟩ ∧
    (addStudent true true " Asha " []).reqs = [GatewayReq.insertStudent "Asha"] ∧
    (addStudent true true " Asha " []).roster = [] ∧
    (addStudent true true " Asha " []).refetchTriggered = true :=
  ⟨(addStudent_spec true "   " []).1 (by decide),
    ((addStudent_spec true " Asha " []).2 (by decide)).1,
    ((addStudent_spec true " Asha " []).2 (by decide)).2.1,
    ((addStudent_spec true " Asha " []).2 (by decide)).2.2 rfl⟩

end TutorConnect
